import Mathlib

/-!
Shallow embedding of the cross-chain swap / NFT-transfer client
(Go package `solver`) and proofs about its orchestration pipeline.

Modelling conventions:
* Go `float64` amounts are embedded as `ℚ` (every finite float value is a
  rational; all concrete inputs used below are exactly representable, and the
  comparison / multiply / truncate operations in the source act on the
  underlying rational values).
* Go `(value, error)` returns are embedded as `Except String value`.
* Network and cryptographic library calls (HTTP, chain RPC, ECDSA/Ed25519
  signing, binary serialization) are external collaborators: their outcomes
  enter the definitions as explicit environment parameters, while every
  branch, guard and data transformation of the Go source is embedded directly.
-/

namespace Solver

/-! ## Data model (types.go) -/

/-- Pool entry as returned by the `getAllPools` backend query. -/
structure Pool where
  ChainName : String
  PoolAddress : String
deriving DecidableEq, Repr

/-- Result of `calculateSwap`; Go struct `SwapResult` (float64 fields as ℚ). -/
structure SwapResult where
  FromToken : String
  ToToken : String
  FromAmount : ℚ
  ToAmount : ℚ
  ExchangeRate : ℚ
deriving DecidableEq, Repr

/-- Go struct `ChainParams`. The Go `Amount` field is a decimal string produced
by `fmt.Sprintf("%f", ·)` and re-parsed by the signer; it is embedded as the
rational value that string denotes. `GasPrice` is a decimal integer string
(produced by `big.Int.String`), embedded as its integer value. -/
structure ChainParams where
  FromAddress : String
  ToAddress : String
  Amount : ℚ
  GasPrice : ℤ
  GasLimit : ℕ
  Nonce : ℕ
  RecentBlockhash : String
  Lamports : ℚ
deriving DecidableEq, Repr

/-- Go struct `TransactionPrep`. -/
structure TransactionPrep where
  Chain : String
  RawTx : String
  ChainParams : ChainParams
deriving DecidableEq, Repr

/-- Go struct `SwapResponse`; the Go `TxToSign *TransactionPrep` pointer is an
`Option`. -/
structure SwapResponse where
  TxHash : String
  SwapResult : SwapResult
  Status : String
  DestinationAddress : String
  TxToSign : Option TransactionPrep
deriving DecidableEq, Repr

/-- Key material derived from the seed phrase (`keys.ChainKeys`). The key
values themselves are opaque to the pipeline; they are embedded as naturals.
The Go globals `chainKeys *ChainKeys` with nilable per-chain fields become
`Option ChainKeys` with `Option` fields. -/
structure ChainKeys where
  EthereumKey : Option ℕ
  SolanaKey : Option ℕ
deriving DecidableEq, Repr

/-- WebSocket envelope, Go struct `WSMessage` (the `interface{}` data payload
is embedded as a string). -/
structure WSMessage where
  msgType : String
  dataField : String
  errorField : String
deriving DecidableEq, Repr

/-! ## Numeric conversion helpers -/

/-- Truncation toward zero of a rational, as performed by `big.Float.Int` on
the (nonnegative, in this code) amount values. -/
def ratTrunc (q : ℚ) : ℤ :=
  Int.tdiv q.num q.den

/-- Wei value built by the Ethereum signing path: the decimal amount times
10^18, truncated (source comment: "Convert decimal to integer by multiplying
by 10^18"). -/
def ethTxValue (amount : ℚ) : ℤ :=
  ratTrunc (amount * 10 ^ 18)

/-! ## C1: ExecuteNFTContractTransaction payment amount -/

/-- Payment amount selected by `ExecuteNFTContractTransaction`:

```go
var amount float64
if calSwapAmount > listedPrice {
    amount = listedPrice
}
```

`amount` keeps its zero value whenever `calSwapAmount ≤ listedPrice` — there
is no `else` branch. -/
def saleAmount (calSwapAmount listedPrice : ℚ) : ℚ :=
  if calSwapAmount > listedPrice then listedPrice else 0

/-- Wei payment attached to the `executeSale` call (`auth.Value`): the
selected amount converted to wei by multiplying by 10^18 and truncating. -/
def saleValueWei (calSwapAmount listedPrice : ℚ) : ℤ :=
  ratTrunc (saleAmount calSwapAmount listedPrice * 10 ^ 18)

/-- Modelled from the spec's words, for comparison with `saleValueWei`: a
payment equal to `min(requestedAmount, listedPrice)` converted to wei. -/
def specSaleValueWei (requestedAmount listedPrice : ℚ) : ℤ :=
  ratTrunc (min requestedAmount listedPrice * 10 ^ 18)

/-- `ExecuteNFTContractTransaction` after the amount computation: the dial /
transactor / `Transact` / `WaitMined` chain interaction is an external
collaborator whose outcome is the `env` parameter; on success the function
returns the transaction hash, and the wei value it attached to the call is
exposed as the second component. -/
def ExecuteNFTContractTransaction (env : Except String String) (tokenId : ℤ)
    (calSwapAmount listedPrice : ℚ) : Except String (String × ℤ) :=
  match env with
  | .error e => .error ("failed to execute sale: " ++ e)
  | .ok txHash => .ok (txHash, saleValueWei calSwapAmount listedPrice)

/-! ## C2: GetSolanaTransaction retry loop -/

/-- Outcome of one `makeRPCRequest` call inside `GetSolanaTransaction`:
either the decoded JSON map (with a flag telling whether its `result` field is
JSON null, plus an opaque payload) or a transport/decode error. -/
inductive RpcAttempt where
  | ok (resultNil : Bool) (payload : String)
  | err (msg : String)
deriving DecidableEq, Repr

/-- State of the Go loop in `GetSolanaTransaction` after it finishes:
final `response` value, final `err` value, number of attempts made, and
number of 5-second sleeps performed.

```go
for i := 0; i < 10; i++ {
    response, err = c.makeRPCRequest(SolanaRPC, requestBody)
    if responseMap, ok := response.(map[string]interface{}); ok {
        if responseMap["result"] == nil {
            time.Sleep(5 * time.Second)
            continue
        }
    }
    if err == nil {
        break
    }
}
```

On a transport error `makeRPCRequest` returns a nil response (not a map), so
the nil-`result` check is skipped and the loop continues without sleeping;
on a successful request with non-null `result` the loop breaks with `err`
nil. -/
def getSolanaLoop (attempts : ℕ → RpcAttempt) :
    ℕ → ℕ → Option (Bool × String) → Option String →
    Option (Bool × String) × Option String × ℕ × ℕ
  | _, 0, resp, errv => (resp, errv, 0, 0)
  | i, fuel + 1, _, _ =>
    match attempts i with
    | .ok resultNil payload =>
      if resultNil then
        let r := getSolanaLoop attempts (i + 1) fuel (some (resultNil, payload)) none
        (r.1, r.2.1, r.2.2.1 + 1, r.2.2.2 + 1)
      else
        (some (resultNil, payload), none, 1, 0)
    | .err m =>
      let r := getSolanaLoop attempts (i + 1) fuel none (some m)
      (r.1, r.2.1, r.2.2.1 + 1, r.2.2.2)

/-- `GetSolanaTransaction` after the loop:

```go
if err != nil {
    return nil, fmt.Errorf("failed to get Solana transaction after 10 retries: %w", err)
}
return response, nil
```

Only the final `err` value is consulted; the `result: null` case leaves `err`
nil. -/
def GetSolanaTransaction (attempts : ℕ → RpcAttempt) :
    Except String (Option (Bool × String)) :=
  let r := getSolanaLoop attempts 0 10 none none
  match r.2.1 with
  | some m => .error ("failed to get Solana transaction after 10 retries: " ++ m)
  | none => .ok r.1

/-! ## C8: pool lookup -/

/-- Loop body of `getPoolAddress`: scan the pool list for the first entry
whose `ChainName` equals the requested token, else the not-found error. -/
def findPool (pools : List Pool) (token : String) : Except String String :=
  match pools with
  | [] => .error ("pool not found for token: " ++ token)
  | p :: rest =>
    if p.ChainName == token then .ok p.PoolAddress else findPool rest token

/-- `getPoolAddress`: fetches the registry via `GetAllPools` (an external
GraphQL call, its outcome is the `poolsResult` parameter) and scans it. -/
def getPoolAddress (poolsResult : Except String (List Pool)) (token : String) :
    Except String String :=
  match poolsResult with
  | .error e => .error ("failed to get pools: " ++ e)
  | .ok pools => findPool pools token

/-- `GetPool` merely delegates to `getPoolAddress`. -/
def GetPool (poolsResult : Except String (List Pool)) (chain : String) :
    Except String String :=
  getPoolAddress poolsResult chain

/-! ## C3: parseFloat64 and ExecuteTransferMutation -/

/-- Model of Go's `strconv.ParseFloat` contract: on success the parsed value
with no error, on a syntax failure the zero value together with an error.
The parse outcome of the concrete string is the `outcome` parameter
(`none` = the string does not parse as a number). -/
def strconvParseFloat (outcome : Option ℚ) : ℚ × Option String :=
  match outcome with
  | some v => (v, none)
  | none => (0, some "invalid syntax")

/-- Go helper

```go
func parseFloat64(s string) float64 {
    f, _ := strconv.ParseFloat(s, 64)
    return f
}
```

The error component is discarded. -/
def parseFloat64 (outcome : Option ℚ) : ℚ :=
  (strconvParseFloat outcome).1

/-- The fields of `NFTQueryResponse.Data.NftUsingBlobHash` consumed by
`ExecuteTransferMutation`: the numeric `id` and the `price` string (embedded
as its parse outcome, since it is only ever read through `parseFloat64`). -/
structure NFTInfo where
  ID : ℤ
  Price : Option ℚ
deriving DecidableEq, Repr

/-- Go struct `TransferParams` (fields not read by the embedded control flow
are kept as strings). `Amount` is the amount string, embedded as its
`strconv.ParseFloat` outcome since it is only ever read through
`parseFloat64` and interpolated back into the mutation text. -/
structure TransferParams where
  SourceOwner : String
  TokenId : String
  TargetChainId : String
  TargetOwner : String
  ChainOwner : String
  BuyFromToken : String
  ToToken : String
  Amount : Option ℚ
  BlobHash : String
  NftId : String
deriving DecidableEq, Repr

/-- Outcomes of the three external calls made by `ExecuteTransferMutation`:
the `GetNFTDetails` GraphQL query, the `ExecuteNFTContractTransaction` chain
interaction, and the `transfer` GraphQL mutation (HTTP + decode + error-list
check collapsed into one outcome). -/
structure TransferEnv where
  nftDetails : Except String NFTInfo
  contractTx : Except String String
  transferResp : Except String Unit
deriving Repr

/-- `ExecuteTransferMutation`: broadcasts `nft_transfer_initiated`, fetches
the NFT details, executes the marketplace sale when `ToToken == "ETH"`
(passing `parseFloat64` of the request amount and of the NFT's listed price),
broadcasts `nft_transfer_pending`, issues the transfer mutation, and
broadcasts `nft_transfer_completed` on success. Returns the result (the
Ethereum sale hash on success, which stays `""` for non-ETH transfers)
together with the list of broadcast event types, in order. -/
def ExecuteTransferMutation (env : TransferEnv) (params : TransferParams) :
    Except String String × List String :=
  let events := ["nft_transfer_initiated"]
  match env.nftDetails with
  | .error e => (.error ("failed to get NFT details: " ++ e), events)
  | .ok nft =>
    let hashRes : Except String String :=
      if params.ToToken == "ETH" then
        (ExecuteNFTContractTransaction env.contractTx nft.ID
          (parseFloat64 params.Amount) (parseFloat64 nft.Price)).map Prod.fst
      else .ok ""
    match hashRes with
    | .error e =>
      (.error ("failed to execute NFT contract transaction after transfer: " ++ e), events)
    | .ok hash =>
      let events := events ++ ["nft_transfer_pending"]
      match env.transferResp with
      | .error e => (.error e, events)
      | .ok _ => (.ok hash, events ++ ["nft_transfer_completed"])

/-! ## Transaction preparation (C7) -/

/-- Rounding performed by the `fmt.Sprintf("%f", ·)` / `strconv.ParseFloat`
round trip that carries the amount from the quote into `ChainParams.Amount`:
`%f` prints six decimal places. Exact for every amount with at most six
decimals (all inputs considered here). -/
def sprintfF (q : ℚ) : ℚ :=
  (round (q * 10 ^ 6) : ℚ) / 10 ^ 6

/-- `prepareEthereumTransaction`: resolves the source pool for the
destination token, queries gas price and pending nonce (chain RPC outcomes
are the corresponding parameters; a `Dial` failure is folded into the
gas-price outcome), and fills `TxToSign` with the Ethereum parameters,
fixing `GasLimit` to 21000. -/
def prepareEthereumTransaction (poolsResult : Except String (List Pool))
    (gasPriceResult : Except String ℤ) (nonceResult : Except String ℕ)
    (swap : SwapResponse) : Except String SwapResponse :=
  match getPoolAddress poolsResult swap.SwapResult.ToToken with
  | .error e => .error ("failed to get source pool address: " ++ e)
  | .ok fromAddress =>
    match gasPriceResult with
    | .error e => .error ("failed to get gas price: " ++ e)
    | .ok gasPrice =>
      match nonceResult with
      | .error e => .error ("failed to get nonce: " ++ e)
      | .ok nonce =>
        .ok { swap with TxToSign := some {
          Chain := "ethereum", RawTx := "",
          ChainParams := {
            FromAddress := fromAddress,
            ToAddress := swap.DestinationAddress,
            Amount := sprintfF swap.SwapResult.ToAmount,
            GasPrice := gasPrice, GasLimit := 21000, Nonce := nonce,
            RecentBlockhash := "", Lamports := 0 } } }

/-- `prepareSolanaTransaction`: resolves the source pool for the destination
token, queries the latest confirmed blockhash (outcome is the parameter),
and fills `TxToSign` with the Solana parameters — in particular
`Lamports := swap.SwapResult.ToAmount`, the quoted output amount itself. -/
def prepareSolanaTransaction (poolsResult : Except String (List Pool))
    (blockhashResult : Except String String) (swap : SwapResponse) :
    Except String SwapResponse :=
  match getPoolAddress poolsResult swap.SwapResult.ToToken with
  | .error e => .error ("failed to get source pool address: " ++ e)
  | .ok fromAddress =>
    match blockhashResult with
    | .error e => .error ("failed to get recent blockhash: " ++ e)
    | .ok blockhash =>
      .ok { swap with TxToSign := some {
        Chain := "solana", RawTx := "",
        ChainParams := {
          FromAddress := fromAddress,
          ToAddress := swap.DestinationAddress,
          Amount := sprintfF swap.SwapResult.ToAmount,
          GasPrice := 0, GasLimit := 0, Nonce := 0,
          RecentBlockhash := blockhash,
          Lamports := swap.SwapResult.ToAmount } } }

/-! ## Byte-string encoders used when storing RawTx -/

/-- Hex digit characters. -/
def hexDigit (n : ℕ) : Char :=
  "0123456789abcdef".toList.getD (n % 16) '0'

/-- `hexutil.Encode`: `0x`-prefixed lowercase hex of a byte string. -/
def hexEncode (bytes : List ℕ) : String :=
  "0x" ++ String.mk (bytes.foldr (fun b acc => hexDigit (b % 256 / 16) :: hexDigit (b % 16) :: acc) [])

/-- Bitcoin-alphabet base58 digit characters. -/
def base58Alphabet : List Char :=
  "123456789ABCDEFGHJKLMNPQRSTUVWXYZabcdefghijkmnopqrstuvwxyz".toList

/-- Little-endian base-58 digits of a natural (fuel-driven; `fuel ≥ n`
suffices since the argument at least halves each step). -/
def base58DigitsAux : ℕ → ℕ → List ℕ
  | 0, _ => []
  | fuel + 1, n => if n == 0 then [] else n % 58 :: base58DigitsAux fuel (n / 58)

/-- Big-endian numeric value of a byte string. -/
def bytesToNat (bytes : List ℕ) : ℕ :=
  bytes.foldl (fun acc b => acc * 256 + b % 256) 0

/-- `base58.Encode`: leading zero bytes map to `1`s, the remainder is the
base-58 expansion of the byte string's value. -/
def base58Encode (bytes : List ℕ) : String :=
  let leadingZeros := (bytes.takeWhile (fun b => b % 256 == 0)).length
  let n := bytesToNat bytes
  let digits := (base58DigitsAux (n + 1) n).reverse
  String.mk (List.replicate leadingZeros '1' ++ digits.map (fun d => base58Alphabet.getD d '1'))

/-! ## Signing (C4, C7, C9, C10) -/

/-- Fields of the legacy Ethereum transaction built by
`signEthereumTransaction` via `types.NewTransaction` and signed with the
EIP-155 signer for the hard-coded chain id 1337. -/
structure EthTxData where
  nonce : ℕ
  toAddress : String
  value : ℤ
  gasLimit : ℕ
  gasPrice : ℤ
  chainId : ℤ
deriving DecidableEq, Repr

/-- Transaction object handed to `types.SignTx` by `signEthereumTransaction`:
the value is the decimal amount scaled by 10^18 and truncated
(`ethTxValue`). -/
def buildEthTx (p : ChainParams) : EthTxData :=
  { nonce := p.Nonce, toAddress := p.ToAddress, value := ethTxValue p.Amount,
    gasLimit := p.GasLimit, gasPrice := p.GasPrice, chainId := 1337 }

/-- `signEthereumTransaction`: requires the derived Ethereum key
(`chainKeys == nil || chainKeys.EthereumKey == nil` fails), builds the legacy
transaction, signs and serializes it (the ECDSA signature plus RLP encoding
is the external deterministic function `ethSignSerialize`, covering both the
`types.SignTx` and `MarshalBinary` steps), and stores the `0x`-hex raw
transaction in `RawTx`. -/
def signEthereumTransaction (ethSignSerialize : ℕ → EthTxData → Except String (List ℕ))
    (chainKeys : Option ChainKeys) (swap : SwapResponse) (prep : TransactionPrep) :
    Except String SwapResponse :=
  match chainKeys.bind ChainKeys.EthereumKey with
  | none => .error "ethereum private key not initialized"
  | some key =>
    match ethSignSerialize key (buildEthTx prep.ChainParams) with
    | .error e => .error ("failed to sign transaction: " ++ e)
    | .ok raw =>
      .ok { swap with TxToSign := some { prep with RawTx := hexEncode raw } }

/-- External outcomes consumed by `signSolanaTransaction`: the base58 parses
of the two addresses, the (discarded) error component of
`solana.NewTransaction`, the public key of a private key, and the binary
serialization of the built transaction as a function of how many signatures
it carries. -/
structure SolSignEnv where
  fromKeyParse : Except String ℕ
  toKeyParse : Except String ℕ
  buildErr : Option String
  pubKeyOf : ℕ → ℕ
  marshalBinary : ℕ → Except String (List ℕ)

/-- `signSolanaTransaction`: requires the derived Solana key, parses the two
base58 addresses, builds the single-instruction transfer transaction
(`tx, err := solana.NewTransaction(...)` — the error is never inspected),
calls `_, _ = tx.Sign(...)` whose signer callback yields the key only when
its public key equals the required (source) key — both the signatures and any
"signer not found" error are discarded — then serializes whatever the
transaction holds and stores it base58-encoded in `RawTx`. -/
def signSolanaTransaction (env : SolSignEnv) (chainKeys : Option ChainKeys)
    (swap : SwapResponse) (prep : TransactionPrep) : Except String SwapResponse :=
  match chainKeys.bind ChainKeys.SolanaKey with
  | none => .error "solana private key not initialized"
  | some solanaKey =>
    match env.fromKeyParse with
    | .error e => .error ("failed to get from address: " ++ e)
    | .ok fromKey =>
      match env.toKeyParse with
      | .error e => .error ("failed to get to address: " ++ e)
      | .ok _ =>
        let _ := env.buildErr
        let signatureCount := if env.pubKeyOf solanaKey == fromKey then 1 else 0
        match env.marshalBinary signatureCount with
        | .error e => .error ("failed to serialize signed transaction: " ++ e)
        | .ok raw =>
          .ok { swap with TxToSign := some { prep with RawTx := base58Encode raw } }

/-- `SignTransaction`: precondition guard on `TxToSign`, then dispatch on the
prepared chain tag. -/
def SignTransaction (ethSignSerialize : ℕ → EthTxData → Except String (List ℕ))
    (solEnv : SolSignEnv) (chainKeys : Option ChainKeys) (swap : SwapResponse) :
    Except String SwapResponse :=
  match swap.TxToSign with
  | none => .error "no transaction prepared for signing"
  | some prep =>
    if prep.Chain == "ethereum" then
      signEthereumTransaction ethSignSerialize chainKeys swap prep
    else if prep.Chain == "solana" then
      signSolanaTransaction solEnv chainKeys swap prep
    else .error ("unsupported chain for signing: " ++ prep.Chain)

/-! ## Submission (C4) -/

/-- External outcomes consumed by the submit paths: hex decode, transaction
unmarshal, node submission and hash for Ethereum; the `sendTransaction`
JSON-RPC call for Solana, whose decoded response is the optional `error`
field and the optional `result` string. -/
structure SubmitEnv where
  ethDecode : String → Except String (List ℕ)
  ethUnmarshal : List ℕ → Except String ℕ
  ethSend : ℕ → Except String Unit
  ethHash : ℕ → String
  solSend : String → Except String (Option String × Option String)

/-- `submitEthereumTransaction`: decode the raw hex bytes, rebuild the
transaction object, send it, then record its canonical hash and mark the
swap `submitted`. -/
def submitEthereumTransaction (env : SubmitEnv) (swap : SwapResponse)
    (prep : TransactionPrep) : Except String SwapResponse :=
  match env.ethDecode prep.RawTx with
  | .error e => .error ("failed to decode raw transaction: " ++ e)
  | .ok rawBytes =>
    match env.ethUnmarshal rawBytes with
    | .error e => .error ("failed to unmarshal transaction: " ++ e)
    | .ok tx =>
      match env.ethSend tx with
      | .error e => .error ("failed to submit transaction: " ++ e)
      | .ok _ => .ok { swap with TxHash := env.ethHash tx, Status := "submitted" }

/-- `submitSolanaTransaction`: issue `sendTransaction` with the base58 raw
transaction; an `error` field in the response is fatal, otherwise the
`result` string becomes the recorded signature and the swap is marked
`submitted`. -/
def submitSolanaTransaction (env : SubmitEnv) (swap : SwapResponse)
    (prep : TransactionPrep) : Except String SwapResponse :=
  match env.solSend prep.RawTx with
  | .error e => .error ("failed to submit transaction: " ++ e)
  | .ok response =>
    match response.1 with
    | some m => .error ("RPC error: " ++ m)
    | none =>
      match response.2 with
      | none => .error "invalid signature format in response"
      | some signature => .ok { swap with TxHash := signature, Status := "submitted" }

/-- `SubmitTransaction`: precondition guard
`swap.TxToSign == nil || swap.TxToSign.RawTx == ""`, then dispatch on the
chain tag. -/
def SubmitTransaction (env : SubmitEnv) (swap : SwapResponse) :
    Except String SwapResponse :=
  match swap.TxToSign with
  | none => .error "no signed transaction available"
  | some prep =>
    if prep.RawTx == "" then .error "no signed transaction available"
    else if prep.Chain == "ethereum" then submitEthereumTransaction env swap prep
    else if prep.Chain == "solana" then submitSolanaTransaction env swap prep
    else .error ("unsupported chain for submission: " ++ prep.Chain)

/-! ## NotificationHub (C5, C6) -/

/-- Registry entry of the hub: a connection handle; `closed` records whether
`WriteJSON` on it fails (connection already closed). -/
structure Subscriber where
  id : ℕ
  closed : Bool
deriving DecidableEq, Repr

/-- One iteration of `handleBroadcasts` for a single event:

```go
for client := range c.clients {
    err := client.WriteJSON(msg)
    if err != nil {
        client.Close()
        delete(c.clients, client)
    }
}
```

Returns the connections a write was attempted on, the connections the event
was delivered to, and the registry after the loop (failed writers removed). -/
def handleBroadcast (registry : List Subscriber) : List ℕ × List ℕ × List Subscriber :=
  match registry with
  | [] => ([], [], [])
  | c :: rest =>
    let r := handleBroadcast rest
    if c.closed then (c.id :: r.1, r.2.1, r.2.2)
    else (c.id :: r.1, c.id :: r.2.1, c :: r.2.2)

/-- Inbound-message handling of `HandleWebSocket`'s read loop:

```go
switch msg.Type {
case "ping":
    conn.WriteJSON(WSMessage{Type: "pong", Data: "pong"})
default:
    conn.WriteJSON(WSMessage{Type: "error", Error: "Unknown message type"})
}
```

First component: the replies written back to the sending connection. Second
component: the messages pushed onto the hub's broadcast channel (towards the
other subscribers) — the read loop never writes to that channel, so this is
empty in both branches. -/
def handleInboundMessage (msg : WSMessage) : List WSMessage × List WSMessage :=
  if msg.msgType == "ping" then
    ([{ msgType := "pong", dataField := "pong", errorField := "" }], [])
  else
    ([{ msgType := "error", dataField := "", errorField := "Unknown message type" }], [])

/-- Projection of a pipeline-stage result onto the raw signed bytes it
stores (`RawTx` of `TxToSign`), used to compare signed outputs. -/
def rawTxOf (r : Except String SwapResponse) : Except String (Option String) :=
  r.map (fun s => s.TxToSign.map TransactionPrep.RawTx)

/-! ## Arithmetic helper lemmas -/

/-- Truncation of an integer-valued rational is that integer. -/
theorem ratTrunc_intCast (n : ℤ) : ratTrunc (n : ℚ) = n := by
  simp [ratTrunc, Int.tdiv_one]

/-- Truncation of zero. -/
theorem ratTrunc_zero : ratTrunc 0 = 0 := by
  have : ((0 : ℤ) : ℚ) = (0 : ℚ) := by norm_num
  rw [← this, ratTrunc_intCast]

/-- Truncation toward zero of a nonnegative rational is nonnegative. -/
theorem ratTrunc_nonneg {q : ℚ} (h : 0 ≤ q) : 0 ≤ ratTrunc q :=
  Int.tdiv_nonneg (Rat.num_nonneg.mpr h) (Int.ofNat_nonneg _)

/-! ## C1 -/

/-- C1 counterexample: at `requestedAmount = 1` and `listedPrice = 2` the
sale executed by `ExecuteNFTContractTransaction` sends a payment of 0 wei
(the `if calSwapAmount > listedPrice` assignment has no `else` branch, so
`amount` keeps its zero value), while `min(1, 2) × 10^18 = 10^18` wei — the
payment is not `min(requestedAmount, listedPrice)` converted to wei. -/
theorem executeSale_payment_ne_min :
    ExecuteNFTContractTransaction (.ok "0xsale") 7 1 2 = .ok ("0xsale", saleValueWei 1 2) ∧
    saleValueWei 1 2 = 0 ∧
    specSaleValueWei 1 2 = 1000000000000000000 ∧
    saleValueWei 1 2 ≠ specSaleValueWei 1 2 := by
  have h0 : saleValueWei 1 2 = 0 := by
    have ha : saleAmount 1 2 = 0 := by norm_num [saleAmount]
    rw [saleValueWei, ha, zero_mul, ratTrunc_zero]
  have h1 : specSaleValueWei 1 2 = 1000000000000000000 := by
    rw [specSaleValueWei]
    have : (min (1 : ℚ) 2 * 10 ^ 18) = ((1000000000000000000 : ℤ) : ℚ) := by norm_num
    rw [this, ratTrunc_intCast]
  exact ⟨rfl, h0, h1, by rw [h0, h1]; decide⟩

/-- C1 amended: the payment value attached to the `executeSale` call equals
`listedPrice × 10^18` wei when `requestedAmount > listedPrice` and 0 wei
otherwise; for nonnegative amounts it therefore never exceeds
`min(requestedAmount, listedPrice) × 10^18`, but equals it only in the
`requestedAmount > listedPrice` case. -/
theorem executeSale_payment_piecewise (txHash : String) (tokenId : ℤ)
    (a p : ℚ) (ha : 0 ≤ a) (hp : 0 ≤ p) :
    ExecuteNFTContractTransaction (.ok txHash) tokenId a p
      = .ok (txHash, if p < a then ratTrunc (p * 10 ^ 18) else 0) ∧
    saleValueWei a p ≤ specSaleValueWei a p := by
  have hval : saleValueWei a p = if p < a then ratTrunc (p * 10 ^ 18) else 0 := by
    unfold saleValueWei saleAmount
    by_cases hc : p < a
    · simp [gt_iff_lt, hc]
    · simp [gt_iff_lt, hc, ratTrunc_zero]
  refine ⟨?_, ?_⟩
  · unfold ExecuteNFTContractTransaction
    rw [hval]
  · rw [hval]
    by_cases hc : p < a
    · rw [if_pos hc]
      unfold specSaleValueWei
      rw [min_eq_right hc.le]
    · rw [if_neg hc]
      exact ratTrunc_nonneg (mul_nonneg (le_min ha hp) (by norm_num))

/-- C1 amended, witness at `requestedAmount = 1`, `listedPrice = 2`. -/
theorem executeSale_payment_piecewise_witness :
    ExecuteNFTContractTransaction (.ok "0xsale") 7 1 2
      = .ok ("0xsale", if (2 : ℚ) < 1 then ratTrunc (2 * 10 ^ 18) else 0) ∧
    saleValueWei 1 2 ≤ specSaleValueWei 1 2 :=
  executeSale_payment_piecewise "0xsale" 7 1 2 (by norm_num) (by norm_num)

/-! ## C2 -/

/-- C2: when the transaction is never visible — every one of the 10 attempts
returns a well-formed JSON-RPC response whose `result` field is null and no
transport error — `GetSolanaTransaction` returns that null-`result` response
as a SUCCESS (`err` is nil after the loop, so the post-loop
"failed ... after 10 retries" check does not fire), contradicting the
documented abort-with-failure behaviour; the loop does make exactly 10
attempts with a 5-second sleep before each retry. -/
theorem getSolanaTransaction_invisible_returns_success :
    GetSolanaTransaction (fun _ => .ok true "") = .ok (some (true, "")) ∧
    (getSolanaLoop (fun _ => RpcAttempt.ok true "") 0 10 none none).2.2 = (10, 10) :=
  ⟨rfl, rfl⟩

/-! ## C3 -/

/-- C3 counterexample: with an amount string that does not parse
(`strconv.ParseFloat` outcome `none`), `parseFloat64` returns the default
value 0 and `ExecuteTransferMutation` completes successfully (here: NFT
lookup, marketplace sale and transfer mutation all succeed), instead of
failing with a validation error. -/
theorem transfer_unparsable_amount_succeeds :
    parseFloat64 none = 0 ∧
    (ExecuteTransferMutation
      { nftDetails := .ok { ID := 1, Price := some 2 },
        contractTx := .ok "0xsale",
        transferResp := .ok () }
      { SourceOwner := "alice", TokenId := "tok", TargetChainId := "chain1",
        TargetOwner := "bob", ChainOwner := "chain0", BuyFromToken := "SOL",
        ToToken := "ETH", Amount := none, BlobHash := "blob", NftId := "1" }).1
      = .ok "0xsale" :=
  ⟨rfl, rfl⟩

/-- C3 amended: an unparsable amount is not a fatal validation error —
`parseFloat64` discards the `strconv.ParseFloat` error and returns 0, and
`ExecuteTransferMutation` behaves exactly as if the amount were the literal
value 0. -/
theorem transfer_unparsable_amount_is_zero (env : TransferEnv) (params : TransferParams) :
    ExecuteTransferMutation env { params with Amount := none }
      = ExecuteTransferMutation env { params with Amount := some 0 } := by
  unfold ExecuteTransferMutation
  cases env.nftDetails <;> simp [parseFloat64, strconvParseFloat]

/-! ## C4 -/

/-- C4: each pipeline stage is a strict precondition for the next — with no
prepared transaction (`TxToSign` nil), `SignTransaction` fails with the
precondition error before consulting keys or signing; with no signed raw
bytes (`TxToSign` nil or `RawTx` empty), `SubmitTransaction` fails with the
precondition error before contacting any chain. -/
theorem sign_submit_stage_preconditions :
    (∀ (ethSignSerialize : ℕ → EthTxData → Except String (List ℕ))
       (solEnv : SolSignEnv) (chainKeys : Option ChainKeys) (swap : SwapResponse),
      swap.TxToSign = none →
      SignTransaction ethSignSerialize solEnv chainKeys swap
        = .error "no transaction prepared for signing") ∧
    (∀ (env : SubmitEnv) (swap : SwapResponse),
      (swap.TxToSign = none ∨ ∃ prep, swap.TxToSign = some prep ∧ prep.RawTx = "") →
      SubmitTransaction env swap = .error "no signed transaction available") := by
  constructor
  · intro ethSignSerialize solEnv chainKeys swap h
    unfold SignTransaction
    rw [h]
  · intro env swap h
    unfold SubmitTransaction
    rcases h with h | ⟨prep, hp, hr⟩
    · rw [h]
    · rw [hp]
      simp [hr]

/-- C4 witness: a swap with no prepared transaction is rejected by
`SignTransaction`, and a prepared but unsigned (empty `RawTx`) swap is
rejected by `SubmitTransaction`, at concrete inputs. -/
theorem sign_submit_stage_preconditions_witness :
    SignTransaction (fun _ _ => .ok [])
        ⟨.ok 0, .ok 0, none, id, fun _ => .ok []⟩ none
        ⟨"", ⟨"ETH", "SOL", 1, 1, 1⟩, "pending", "dest", none⟩
      = .error "no transaction prepared for signing" ∧
    SubmitTransaction
        ⟨fun _ => .ok [], fun _ => .ok 0, fun _ => .ok (), fun _ => "h",
         fun _ => .ok (none, some "sig")⟩
        ⟨"", ⟨"ETH", "SOL", 1, 1, 1⟩, "pending", "dest",
         some ⟨"solana", "", ⟨"from", "to", 1, 0, 0, 0, "bh", 1⟩⟩⟩
      = .error "no signed transaction available" :=
  ⟨sign_submit_stage_preconditions.1 _ _ _ _ rfl,
   sign_submit_stage_preconditions.2 _ _ (.inr ⟨_, rfl, rfl⟩)⟩

/-! ## C5 -/

/-- C5: broadcasting one event attempts delivery to every registered
subscriber, delivers it to exactly those whose connection write succeeds,
and removes the failed writers from the registry; in particular, when
exactly one subscriber's write fails the event still reaches the other
`N - 1` subscribers. -/
theorem notification_broadcast_delivery (registry : List Subscriber) :
    (handleBroadcast registry).1 = registry.map Subscriber.id ∧
    (handleBroadcast registry).2.1
      = (registry.filter (fun c => !c.closed)).map Subscriber.id ∧
    (handleBroadcast registry).2.2 = registry.filter (fun c => !c.closed) ∧
    ((registry.filter (fun c => c.closed)).length = 1 →
      (handleBroadcast registry).2.1.length = registry.length - 1) := by
  have key : ∀ l : List Subscriber,
      (handleBroadcast l).1 = l.map Subscriber.id ∧
      (handleBroadcast l).2.1 = (l.filter (fun c => !c.closed)).map Subscriber.id ∧
      (handleBroadcast l).2.2 = l.filter (fun c => !c.closed) := by
    intro l
    induction l with
    | nil => exact ⟨rfl, rfl, rfl⟩
    | cons c rest ih =>
      obtain ⟨h1, h2, h3⟩ := ih
      cases hc : c.closed <;>
        simp [handleBroadcast, hc, h1, h2, h3, List.filter_cons]
  obtain ⟨h1, h2, h3⟩ := key registry
  refine ⟨h1, h2, h3, ?_⟩
  intro hone
  rw [h2, List.length_map]
  have hsplit : ∀ l : List Subscriber,
      (l.filter (fun c => c.closed)).length
        + (l.filter (fun c => !c.closed)).length = l.length := by
    intro l
    induction l with
    | nil => rfl
    | cons c rest ih => cases hc : c.closed <;> simp [List.filter_cons, hc] <;> omega
  have := hsplit registry
  omega

/-- C5 witness: a registry of three subscribers of which exactly the second
has a closed connection — the event is delivered to the other two. -/
theorem notification_broadcast_delivery_witness :
    (handleBroadcast [⟨1, false⟩, ⟨2, true⟩, ⟨3, false⟩]).2.1.length = 3 - 1 :=
  (notification_broadcast_delivery [⟨1, false⟩, ⟨2, true⟩, ⟨3, false⟩]).2.2.2 (by decide)

/-! ## C6 -/

/-- C6: an inbound `ping` is answered with exactly one `pong`, any other
inbound type with exactly one `error` carrying "Unknown message type", and
in neither case is anything pushed onto the broadcast channel towards the
other subscribers. -/
theorem inbound_message_protocol (msg : WSMessage) :
    (msg.msgType = "ping" → handleInboundMessage msg
      = ([{ msgType := "pong", dataField := "pong", errorField := "" }], [])) ∧
    (msg.msgType ≠ "ping" → handleInboundMessage msg
      = ([{ msgType := "error", dataField := "", errorField := "Unknown message type" }], [])) ∧
    (handleInboundMessage msg).2 = [] := by
  unfold handleInboundMessage
  by_cases h : msg.msgType = "ping" <;> simp [h]

/-- C6 witness: the reply to a concrete `ping` and to a concrete unknown
message type. -/
theorem inbound_message_protocol_witness :
    handleInboundMessage ⟨"ping", "", ""⟩
      = ([{ msgType := "pong", dataField := "pong", errorField := "" }], []) ∧
    handleInboundMessage ⟨"subscribe", "", ""⟩
      = ([{ msgType := "error", dataField := "", errorField := "Unknown message type" }], []) :=
  ⟨(inbound_message_protocol ⟨"ping", "", ""⟩).1 rfl,
   (inbound_message_protocol ⟨"subscribe", "", ""⟩).2.1 (by decide)⟩

/-! ## C7 -/

/-- C7: the Ethereum signing path converts the decimal amount to base units
by multiplying by 10^18 and truncating toward zero — for amount `1.5` the
transaction value is exactly 1500000000000000000 — while
`prepareSolanaTransaction` stores the quoted output amount itself as the
`Lamports` value of the transfer instruction, with no scaling. -/
theorem amount_unit_conversion :
    (∀ p : ChainParams, (buildEthTx p).value = ratTrunc (p.Amount * 10 ^ 18)) ∧
    (∀ p : ChainParams, p.Amount = 3 / 2 →
      (buildEthTx p).value = 1500000000000000000) ∧
    (∀ (poolsResult : Except String (List Pool))
       (blockhashResult : Except String String) (swap out : SwapResponse),
      prepareSolanaTransaction poolsResult blockhashResult swap = .ok out →
      ∃ prep, out.TxToSign = some prep ∧
        prep.ChainParams.Lamports = swap.SwapResult.ToAmount) := by
  refine ⟨fun p => rfl, ?_, ?_⟩
  · intro p hp
    show ethTxValue p.Amount = _
    rw [ethTxValue, hp]
    have h : (3 / 2 * 10 ^ 18 : ℚ) = ((1500000000000000000 : ℤ) : ℚ) := by norm_num
    rw [h, ratTrunc_intCast]
  · intro poolsResult blockhashResult swap out h
    unfold prepareSolanaTransaction at h
    cases hg : getPoolAddress poolsResult swap.SwapResult.ToToken with
    | error e => rw [hg] at h; cases h
    | ok fromAddress =>
      rw [hg] at h
      cases blockhashResult with
      | error e => cases h
      | ok blockhash =>
        injection h with h
        exact ⟨_, by rw [← h], rfl⟩

/-- C7 witness: a concrete Ethereum parameter set with amount `1.5`, and a
concrete successful Solana preparation whose stored `Lamports` is the quoted
output amount. -/
theorem amount_unit_conversion_witness :
    (buildEthTx ⟨"pool", "dest", 3 / 2, 5, 21000, 0, "", 0⟩).value = 1500000000000000000 ∧
    ∃ prep,
      ({ TxHash := "", SwapResult := ⟨"ETH", "SOL", 1, 2, 2⟩, Status := "pending",
         DestinationAddress := "dest",
         TxToSign := some ⟨"solana", "",
           ⟨"pool", "dest", sprintfF 2, 0, 0, 0, "bh", 2⟩⟩ } : SwapResponse).TxToSign
        = some prep ∧
      prep.ChainParams.Lamports
        = ({ TxHash := "", SwapResult := ⟨"ETH", "SOL", 1, 2, 2⟩, Status := "pending",
             DestinationAddress := "dest",
             TxToSign := none } : SwapResponse).SwapResult.ToAmount :=
  ⟨amount_unit_conversion.2.1 _ rfl,
   amount_unit_conversion.2.2 (.ok [⟨"SOL", "pool"⟩]) (.ok "bh")
     { TxHash := "", SwapResult := ⟨"ETH", "SOL", 1, 2, 2⟩, Status := "pending",
       DestinationAddress := "dest", TxToSign := none } _ rfl⟩

/-! ## C8 -/

/-- C8: `GetPool` on a successfully fetched registry returns the pool
address of the (first) entry whose `ChainName` equals the requested chain —
whenever the registry contains a matching entry, the result is `.ok` of that
entry's address — every `.ok` result comes from a matching registry entry,
and the lookup fails with the pool-not-found error exactly when no entry
matches. -/
theorem pool_lookup (pools : List Pool) (chain : String) :
    (∀ p, pools.find? (fun q => q.ChainName == chain) = some p →
      GetPool (.ok pools) chain = .ok p.PoolAddress ∧
      p ∈ pools ∧ p.ChainName = chain) ∧
    (∀ addr, GetPool (.ok pools) chain = .ok addr →
      ∃ p, p ∈ pools ∧ p.ChainName = chain ∧ p.PoolAddress = addr) ∧
    ((∀ p, p ∈ pools → p.ChainName ≠ chain) →
      GetPool (.ok pools) chain = .error ("pool not found for token: " ++ chain)) := by
  have key : ∀ l : List Pool,
      (∀ p, l.find? (fun q => q.ChainName == chain) = some p →
        findPool l chain = .ok p.PoolAddress ∧ p ∈ l ∧ p.ChainName = chain) ∧
      (∀ addr, findPool l chain = .ok addr →
        ∃ p, p ∈ l ∧ p.ChainName = chain ∧ p.PoolAddress = addr) ∧
      ((∀ p, p ∈ l → p.ChainName ≠ chain) →
        findPool l chain = .error ("pool not found for token: " ++ chain)) := by
    intro l
    induction l with
    | nil =>
      refine ⟨fun p h => absurd h (by simp),
        fun addr h => absurd h (by simp [findPool]), fun _ => rfl⟩
    | cons q rest ih =>
      refine ⟨?_, ?_, ?_⟩
      · intro p hf
        cases hq : (q.ChainName == chain) with
        | true =>
          rw [@List.find?_cons_of_pos _ (fun r => r.ChainName == chain) q rest hq] at hf
          injection hf with hf
          subst hf
          exact ⟨by simp [findPool, hq], List.mem_cons_self q rest, by simpa using hq⟩
        | false =>
          rw [@List.find?_cons_of_neg _ (fun r => r.ChainName == chain) q rest
            (by simp [hq])] at hf
          obtain ⟨h1, h2, h3⟩ := ih.1 p hf
          exact ⟨by simp [findPool, hq, h1], List.mem_cons_of_mem q h2, h3⟩
      · intro addr h
        rw [findPool] at h
        cases hq : (q.ChainName == chain) with
        | true =>
          rw [hq, if_pos rfl] at h
          injection h with h
          exact ⟨q, List.mem_cons_self q rest, by simpa using hq, h⟩
        | false =>
          rw [hq] at h
          simp only [Bool.false_eq_true, if_false] at h
          obtain ⟨p, hmem, h1, h2⟩ := ih.2.1 addr h
          exact ⟨p, List.mem_cons_of_mem q hmem, h1, h2⟩
      · intro hall
        rw [findPool]
        have hq : (q.ChainName == chain) = false :=
          beq_eq_false_iff_ne.mpr (hall q (List.mem_cons_self q rest))
        rw [hq]
        simp only [Bool.false_eq_true, if_false]
        exact ih.2.2 (fun p hp => hall p (List.mem_cons_of_mem q hp))
  exact key pools

/-- C8 witness: on a two-entry registry containing an ethereum entry,
`GetPool` returns that entry's address `0xabc`, and on a registry without an
ethereum entry it yields the pool-not-found error. -/
theorem pool_lookup_witness :
    GetPool (.ok [Pool.mk "ethereum" "0xabc", Pool.mk "solana" "sol1"]) "ethereum"
      = .ok (Pool.mk "ethereum" "0xabc").PoolAddress ∧
    Pool.mk "ethereum" "0xabc" ∈ [Pool.mk "ethereum" "0xabc", Pool.mk "solana" "sol1"] ∧
    (Pool.mk "ethereum" "0xabc").ChainName = "ethereum" ∧
    GetPool (.ok [Pool.mk "solana" "sol1"]) "ethereum"
      = .error ("pool not found for token: " ++ "ethereum") :=
  ⟨((pool_lookup [Pool.mk "ethereum" "0xabc", Pool.mk "solana" "sol1"] "ethereum").1
      (Pool.mk "ethereum" "0xabc") rfl).1,
   ((pool_lookup [Pool.mk "ethereum" "0xabc", Pool.mk "solana" "sol1"] "ethereum").1
      (Pool.mk "ethereum" "0xabc") rfl).2.1,
   ((pool_lookup [Pool.mk "ethereum" "0xabc", Pool.mk "solana" "sol1"] "ethereum").1
      (Pool.mk "ethereum" "0xabc") rfl).2.2,
   (pool_lookup [Pool.mk "solana" "sol1"] "ethereum").2.2 (by decide)⟩

/-! ## C9 -/

/-- Helper: the Ethereum signing path derives the stored `RawTx` from the
prepared transaction and the key material alone, not from any other field of
the swap. -/
theorem signEthereum_rawTx_swap_independent
    (ethSignSerialize : ℕ → EthTxData → Except String (List ℕ))
    (chainKeys : Option ChainKeys) (s1 s2 : SwapResponse) (prep : TransactionPrep) :
    rawTxOf (signEthereumTransaction ethSignSerialize chainKeys s1 prep)
      = rawTxOf (signEthereumTransaction ethSignSerialize chainKeys s2 prep) := by
  cases hk : chainKeys.bind ChainKeys.EthereumKey with
  | none => simp [signEthereumTransaction, hk]
  | some key =>
    cases hE : ethSignSerialize key (buildEthTx prep.ChainParams) with
    | error e => simp [signEthereumTransaction, hk, hE]
    | ok raw => simp [signEthereumTransaction, hk, hE, rawTxOf, Except.map]

/-- Helper: the Solana signing path likewise derives the stored `RawTx` from
the prepared transaction, the environment and the key material alone. -/
theorem signSolana_rawTx_swap_independent (solEnv : SolSignEnv)
    (chainKeys : Option ChainKeys) (s1 s2 : SwapResponse) (prep : TransactionPrep) :
    rawTxOf (signSolanaTransaction solEnv chainKeys s1 prep)
      = rawTxOf (signSolanaTransaction solEnv chainKeys s2 prep) := by
  cases hk : chainKeys.bind ChainKeys.SolanaKey with
  | none => simp [signSolanaTransaction, hk]
  | some solanaKey =>
    cases hf : solEnv.fromKeyParse with
    | error e => simp [signSolanaTransaction, hk, hf]
    | ok fromKey =>
      cases ht : solEnv.toKeyParse with
      | error e => simp [signSolanaTransaction, hk, hf, ht]
      | ok toKey =>
        by_cases hpk : solEnv.pubKeyOf solanaKey = fromKey
        · cases hm : solEnv.marshalBinary 1 with
          | error e => simp [signSolanaTransaction, hk, hf, ht, hpk, hm]
          | ok raw => simp [signSolanaTransaction, hk, hf, ht, hpk, hm, rawTxOf, Except.map]
        · cases hm : solEnv.marshalBinary 0 with
          | error e => simp [signSolanaTransaction, hk, hf, ht, hpk, hm]
          | ok raw => simp [signSolanaTransaction, hk, hf, ht, hpk, hm, rawTxOf, Except.map]

/-- C9: signing is deterministic — with the same external signing primitives
and key material, two swaps carrying the same prepared transaction produce
the same raw signed output (the embedding has no other input: the Go code
introduces no randomness of its own, and the go-ethereum ECDSA and Solana
Ed25519 primitives it calls are deterministic functions of key and
message). -/
theorem sign_deterministic (ethSignSerialize : ℕ → EthTxData → Except String (List ℕ))
    (solEnv : SolSignEnv) (chainKeys : Option ChainKeys) (s1 s2 : SwapResponse)
    (h : s1.TxToSign = s2.TxToSign) :
    rawTxOf (SignTransaction ethSignSerialize solEnv chainKeys s1)
      = rawTxOf (SignTransaction ethSignSerialize solEnv chainKeys s2) := by
  cases hts : s2.TxToSign with
  | none => simp [SignTransaction, h, hts]
  | some prep =>
    cases hc : prep.Chain == "ethereum" with
    | true =>
      have goal1 : SignTransaction ethSignSerialize solEnv chainKeys s1
          = signEthereumTransaction ethSignSerialize chainKeys s1 prep := by
        simp [SignTransaction, h, hts, hc]
      have goal2 : SignTransaction ethSignSerialize solEnv chainKeys s2
          = signEthereumTransaction ethSignSerialize chainKeys s2 prep := by
        simp [SignTransaction, hts, hc]
      rw [goal1, goal2]
      exact signEthereum_rawTx_swap_independent ethSignSerialize chainKeys s1 s2 prep
    | false =>
      cases hs : prep.Chain == "solana" with
      | true =>
        have goal1 : SignTransaction ethSignSerialize solEnv chainKeys s1
            = signSolanaTransaction solEnv chainKeys s1 prep := by
          simp [SignTransaction, h, hts, hc, hs]
        have goal2 : SignTransaction ethSignSerialize solEnv chainKeys s2
            = signSolanaTransaction solEnv chainKeys s2 prep := by
          simp [SignTransaction, hts, hc, hs]
        rw [goal1, goal2]
        exact signSolana_rawTx_swap_independent solEnv chainKeys s1 s2 prep
      | false => simp [SignTransaction, h, hts, hc, hs]

/-- C9 witness: two concrete swaps that differ in hash, status and
destination but carry the same prepared Ethereum transaction yield the same
raw signed output. -/
theorem sign_deterministic_witness :
    rawTxOf (SignTransaction (fun key _ => .ok [key])
        ⟨.ok 0, .ok 0, none, id, fun _ => .ok []⟩ (some ⟨some 9, none⟩)
        ⟨"hash1", ⟨"SOL", "ETH", 1, 2, 2⟩, "pending", "dest1",
         some ⟨"ethereum", "", ⟨"from", "to", 3 / 2, 7, 21000, 4, "", 0⟩⟩⟩)
      = rawTxOf (SignTransaction (fun key _ => .ok [key])
        ⟨.ok 0, .ok 0, none, id, fun _ => .ok []⟩ (some ⟨some 9, none⟩)
        ⟨"hash2", ⟨"SOL", "ETH", 1, 2, 2⟩, "submitted", "dest2",
         some ⟨"ethereum", "", ⟨"from", "to", 3 / 2, 7, 21000, 4, "", 0⟩⟩⟩) :=
  sign_deterministic _ _ _ _ _ rfl

/-! ## C10 -/

/-- C10: `signSolanaTransaction` discards the error of transaction
construction (`tx, err := solana.NewTransaction(...)`: `err` never
inspected) and the result of `tx.Sign` (`_, _ =`): whenever serialization
succeeds it returns success and stores a base58-encoded `RawTx`, even when
the construction reported an error and the configured key's public key does
not match the source address so that no signature was produced. -/
theorem signSolana_ignores_build_and_sign_errors (solEnv : SolSignEnv)
    (keys : ChainKeys) (solanaKey : ℕ) (swap : SwapResponse)
    (prep : TransactionPrep) (fromKey toKey : ℕ) (buildError : String)
    (raw : List ℕ)
    (hkey : keys.SolanaKey = some solanaKey)
    (hfrom : solEnv.fromKeyParse = .ok fromKey)
    (hto : solEnv.toKeyParse = .ok toKey)
    (hbuild : solEnv.buildErr = some buildError)
    (hnosig : solEnv.pubKeyOf solanaKey ≠ fromKey)
    (hmarshal : solEnv.marshalBinary 0 = .ok raw) :
    signSolanaTransaction solEnv (some keys) swap prep
      = .ok { swap with TxToSign := some { prep with RawTx := base58Encode raw } } := by
  have hbind : (some keys).bind ChainKeys.SolanaKey = some solanaKey := by
    simp [Option.bind, hkey]
  simp [signSolanaTransaction, hbind, hfrom, hto, hnosig, hmarshal]

/-- C10 witness: a concrete environment where transaction construction
reported an error and the key's public key (8) differs from the source key
(5), yet signing "succeeds" and stores the base58 encoding of the
serialized, unsigned transaction. -/
theorem signSolana_ignores_build_and_sign_errors_witness :
    signSolanaTransaction
        ⟨.ok 5, .ok 6, some "tx build failed", fun k => k + 1, fun _ => .ok [1]⟩
        (some ⟨none, some 7⟩)
        ⟨"", ⟨"ETH", "SOL", 1, 2, 2⟩, "pending", "dest",
         some ⟨"solana", "", ⟨"from", "to", 2, 0, 0, 0, "bh", 2⟩⟩⟩
        ⟨"solana", "", ⟨"from", "to", 2, 0, 0, 0, "bh", 2⟩⟩
      = .ok ⟨"", ⟨"ETH", "SOL", 1, 2, 2⟩, "pending", "dest",
         some ⟨"solana", base58Encode [1], ⟨"from", "to", 2, 0, 0, 0, "bh", 2⟩⟩⟩ :=
  signSolana_ignores_build_and_sign_errors _ _ 7 _ _ 5 6 "tx build failed" [1]
    rfl rfl rfl rfl (by decide) rfl

end Solver
